import Mathlib

/-!
Verification of the field-quality validation engine of the OCR form-extraction
repository: a shallow embedding of `src/models/schemas.py`,
`src/models/validation.py` and `src/services/validation_service.py`.

Python strings are Lean `String`s, Python ints are `Int`/`Nat`, Python floats
(only ever produced by exact arithmetic on small integers here) are modelled
as `ℚ`.  The Python dict produced by `Form283Data.model_dump(by_alias=True)`
is modelled by an association list of Hebrew alias keys (`dump`), in Pydantic
field-definition order (which is the deterministic dict insertion order the
Python code iterates in).
-/

namespace OCRExtractor

/-- Python `str.isdigit()` on the ASCII fragment used by the form data:
`True` iff the string is non-empty and all characters are digits. -/
def pyIsDigit (s : String) : Bool :=
  !s.isEmpty && s.data.all Char.isDigit

/-- Python `int(s)` on an all-digit string: decimal value. -/
def strToNat (s : String) : Nat :=
  s.data.foldl (fun n c => n * 10 + (c.toNat - 48)) 0

/-- A chain of Python `str.replace(c, "")` calls for single-character
separators: removes every occurrence of each character in `cs`. -/
def stripChars (s : String) (cs : List Char) : String :=
  ⟨s.data.filter (fun c => !cs.contains c)⟩

/-- `validation_service.py` lines 236/429: `.replace(" ", "").replace("-", "")`
used for the ID number and the postal code. -/
def stripIdSeparators (s : String) : String := stripChars s [' ', '-']

/-- `validation_service.py` lines 265/305:
`.replace("-", "").replace(" ", "").replace("(", "").replace(")", "")`
used for the phone numbers. -/
def stripPhoneSeparators (s : String) : String := stripChars s ['-', ' ', '(', ')']

/-- Python `s.startswith(pat)`. -/
def pyStartsWith (s pat : String) : Bool :=
  pat.data.isPrefixOf s.data

/-- Python substring test `pat in s`. -/
def strContains (s pat : String) : Bool :=
  (List.range (s.data.length + 1)).any fun i => pat.data.isPrefixOf (s.data.drop i)

/-! ## Data model (`src/models/schemas.py`) -/

/-- `DateField`: a date in day/month/year format, all strings, empty string
for missing values. -/
structure DateField where
  day : String := ""
  month : String := ""
  year : String := ""
deriving DecidableEq, Repr

/-- `DateField.is_empty`: all three components are empty. -/
def DateField.is_empty (d : DateField) : Bool :=
  d.day == "" && d.month == "" && d.year == ""

/-- `AddressField`: a complete Israeli address, seven string components. -/
structure AddressField where
  street : String := ""
  houseNumber : String := ""
  entrance : String := ""
  apartment : String := ""
  city : String := ""
  postalCode : String := ""
  poBox : String := ""
deriving DecidableEq, Repr

/-- `AddressField.is_empty`: all seven components are empty. -/
def AddressField.is_empty (a : AddressField) : Bool :=
  a.street == "" && a.houseNumber == "" && a.entrance == "" && a.apartment == ""
    && a.city == "" && a.postalCode == "" && a.poBox == ""

/-- `MedicalInstitutionFields`: part 5 of the form, three scalar fields. -/
structure MedicalInstitutionFields where
  healthFundMember : String := ""
  natureOfAccident : String := ""
  medicalDiagnoses : String := ""
deriving DecidableEq, Repr

/-- `Form283Data`: the complete validated form record, in the field order of
the Pydantic model. -/
structure Form283Data where
  lastName : String := ""
  firstName : String := ""
  idNumber : String := ""
  gender : String := ""
  dateOfBirth : DateField := {}
  address : AddressField := {}
  landlinePhone : String := ""
  mobilePhone : String := ""
  jobType : String := ""
  dateOfInjury : DateField := {}
  timeOfInjury : String := ""
  accidentLocation : String := ""
  accidentAddress : String := ""
  accidentDescription : String := ""
  injuredBodyPart : String := ""
  signature : String := ""
  formFillingDate : DateField := {}
  formReceiptDateAtClinic : DateField := {}
  medicalInstitutionFields : MedicalInstitutionFields := {}
deriving DecidableEq, Repr

/-! ## `model_dump(by_alias=True)` -/

/-- A value of the dumped dict: either a string leaf or a nested flat dict
(all nested composites of `Form283Data` are one level deep with string
leaves). -/
inductive DumpVal where
  | s : String → DumpVal
  | d : List (String × String) → DumpVal
deriving DecidableEq, Repr

/-- Dump of a `DateField` under its Hebrew aliases, in field order. -/
def dumpDate (d : DateField) : List (String × String) :=
  [("יום", d.day), ("חודש", d.month), ("שנה", d.year)]

/-- Dump of an `AddressField` under its Hebrew aliases, in field order. -/
def dumpAddress (a : AddressField) : List (String × String) :=
  [("רחוב", a.street), ("מספר בית", a.houseNumber), ("כניסה", a.entrance),
   ("דירה", a.apartment), ("ישוב", a.city), ("מיקוד", a.postalCode),
   ("תא דואר", a.poBox)]

/-- Dump of `MedicalInstitutionFields` under its Hebrew aliases. -/
def dumpMedical (m : MedicalInstitutionFields) : List (String × String) :=
  [("חבר בקופת חולים", m.healthFundMember), ("מהות התאונה", m.natureOfAccident),
   ("אבחנות רפואיות", m.medicalDiagnoses)]

/-- `Form283Data.model_dump(by_alias=True)`: the dict the validation service
operates on, keyed by Hebrew aliases, in Pydantic field-definition order. -/
def dump (f : Form283Data) : List (String × DumpVal) :=
  [("שם משפחה", .s f.lastName),
   ("שם פרטי", .s f.firstName),
   ("מספר זהות", .s f.idNumber),
   ("מין", .s f.gender),
   ("תאריך לידה", .d (dumpDate f.dateOfBirth)),
   ("כתובת", .d (dumpAddress f.address)),
   ("טלפון קווי", .s f.landlinePhone),
   ("טלפון נייד", .s f.mobilePhone),
   ("סוג העבודה", .s f.jobType),
   ("תאריך הפגיעה", .d (dumpDate f.dateOfInjury)),
   ("שעת הפגיעה", .s f.timeOfInjury),
   ("מקום התאונה", .s f.accidentLocation),
   ("כתובת מקום התאונה", .s f.accidentAddress),
   ("תיאור התאונה", .s f.accidentDescription),
   ("האיבר שנפגע", .s f.injuredBodyPart),
   ("חתימה", .s f.signature),
   ("תאריך מילוי הטופס", .d (dumpDate f.formFillingDate)),
   ("תאריך קבלת הטופס בקופה", .d (dumpDate f.formReceiptDateAtClinic)),
   ("למילוי ע\"י המוסד הרפואי", .d (dumpMedical f.medicalInstitutionFields))]

/-- Python `dict.get(key)` on the dumped dict (keys are unique). -/
def dictGet (l : List (String × DumpVal)) (k : String) : Option DumpVal :=
  List.lookup k l

/-- Python `dict.get(key, "")` when a string is expected
(`validated_dict.get("מספר זהות", "")` and alike). -/
def dictGetStr (l : List (String × DumpVal)) (k : String) : String :=
  match List.lookup k l with
  | some (.s v) => v
  | _ => ""

/-- Python `dict.get(key, {})` followed by the `isinstance(..., dict)` test
(`validated_dict.get("תאריך לידה", {})` and alike): the nested entries, or
`[]` when the key is missing or not a dict. -/
def dictGetEntries (l : List (String × DumpVal)) (k : String) :
    List (String × String) :=
  match List.lookup k l with
  | some (.d es) => es
  | _ => []

/-- Python `dict.get(key, "")` on a nested (flat) dict. -/
def entriesGetStr (es : List (String × String)) (k : String) : String :=
  match List.lookup k es with
  | some v => v
  | none => ""

/-! ## Report model (`src/models/validation.py`) -/

/-- `FieldCorrection`: one reported correction or quality issue. -/
structure FieldCorrection where
  field : String
  raw_value : String
  validated_value : String
  reason : String
  auto_corrected : Bool := true
  issue_type : String := "correction"
deriving DecidableEq, Repr

/-- `ValidationReport`: the full output of one validation run.  Score floats
are modelled as rationals. -/
structure ValidationReport where
  is_valid : Bool
  accuracy_score : ℚ
  completeness_score : ℚ
  corrections : List FieldCorrection
  filled_count : Nat
  total_count : Nat
  missing_fields : List String
  summary : String
deriving Repr

/-! ## Completeness counter (`schemas.py` lines 271-325) -/

/-- `Form283Data.get_filled_fields_count`: `(filled, total)` over 13 scalar
fields, 4 date composites (one unit each), 1 address composite and 3 medical
scalar fields.  The Python guard `if field and field != ""` is the single
test `field ≠ ""` on strings. -/
def Form283Data.get_filled_fields_count (f : Form283Data) : Nat × Nat :=
  let simple_fields := [f.lastName, f.firstName, f.idNumber, f.gender,
    f.landlinePhone, f.mobilePhone, f.jobType, f.timeOfInjury,
    f.accidentLocation, f.accidentAddress, f.accidentDescription,
    f.injuredBodyPart, f.signature]
  let date_fields := [f.dateOfBirth, f.dateOfInjury, f.formFillingDate,
    f.formReceiptDateAtClinic]
  let medical_fields := [f.medicalInstitutionFields.healthFundMember,
    f.medicalInstitutionFields.natureOfAccident,
    f.medicalInstitutionFields.medicalDiagnoses]
  let total := simple_fields.length + date_fields.length + 1 + medical_fields.length
  let filled := simple_fields.countP (fun s => s != "")
    + date_fields.countP (fun d => !d.is_empty)
    + (if !f.address.is_empty then 1 else 0)
    + medical_fields.countP (fun s => s != "")
  (filled, total)

/-- `Form283Data.get_completeness_percentage`: `filled / total * 100`, with
the defensive `0.0` branch when `total == 0`. -/
def Form283Data.get_completeness_percentage (f : Form283Data) : ℚ :=
  let filled := f.get_filled_fields_count.1
  let total := f.get_filled_fields_count.2
  if total = 0 then 0 else ((filled : ℚ) / (total : ℚ)) * 100

/-! ## Quality rule set (`validation_service.py` lines 217-454)

The Python `_check_field_quality` is one straight-line function appending to
`quality_issues`; it is embedded here as one per-field-chain definition per
source block, concatenated in source order. -/

/-- ID number chain (`validation_service.py` lines 232-259). -/
def checkIdNumber (id_number : String) : List FieldCorrection :=
  if id_number ≠ "" then
    let cleaned := stripIdSeparators id_number
    if !pyIsDigit cleaned then
      [{ field := "מספר זהות", raw_value := id_number,
         validated_value := id_number,
         reason := "ID number contains non-numeric characters",
         auto_corrected := false, issue_type := "quality" }]
    else if cleaned.length ≠ 9 then
      [{ field := "מספר זהות", raw_value := id_number,
         validated_value := id_number,
         reason := "ID number should be 9 digits, got " ++ toString cleaned.length,
         auto_corrected := false, issue_type := "quality" }]
    else []
  else []

/-- Mobile phone chain (`validation_service.py` lines 261-299). -/
def checkMobilePhone (mobile : String) : List FieldCorrection :=
  if mobile ≠ "" then
    let cleaned := stripPhoneSeparators mobile
    if !pyIsDigit cleaned then
      [{ field := "טלפון נייד", raw_value := mobile, validated_value := mobile,
         reason := "Phone number contains non-numeric characters",
         auto_corrected := false, issue_type := "quality" }]
    else if !pyStartsWith cleaned "0" then
      [{ field := "טלפון נייד", raw_value := mobile, validated_value := mobile,
         reason := "Israeli phone numbers should start with 0",
         auto_corrected := false, issue_type := "quality" }]
    else if pyStartsWith cleaned "05" ∧ cleaned.length ≠ 10 then
      [{ field := "טלפון נייד", raw_value := mobile, validated_value := mobile,
         reason := "Mobile phone should be 10 digits, got " ++ toString cleaned.length,
         auto_corrected := false, issue_type := "quality" }]
    else []
  else []

/-- Landline phone chain (`validation_service.py` lines 301-339). -/
def checkLandlinePhone (landline : String) : List FieldCorrection :=
  if landline ≠ "" then
    let cleaned := stripPhoneSeparators landline
    if !pyIsDigit cleaned then
      [{ field := "טלפון קווי", raw_value := landline, validated_value := landline,
         reason := "Phone number contains non-numeric characters",
         auto_corrected := false, issue_type := "quality" }]
    else if !pyStartsWith cleaned "0" then
      [{ field := "טלפון קווי", raw_value := landline, validated_value := landline,
         reason := "Israeli phone numbers should start with 0",
         auto_corrected := false, issue_type := "quality" }]
    else if !pyStartsWith cleaned "05" ∧ pyStartsWith cleaned "0" ∧ cleaned.length ≠ 9 then
      [{ field := "טלפון קווי", raw_value := landline, validated_value := landline,
         reason := "Landline phone should be 9 digits, got " ++ toString cleaned.length,
         auto_corrected := false, issue_type := "quality" }]
    else []
  else []

/-- The hardcoded `current_year = 2025` (`validation_service.py` line 410:
"Could use datetime.now().year but keeping simple"). -/
def currentYear : Nat := 2025

/-- Day chain of a date composite (`validation_service.py` lines 345-368). -/
def checkDay (date_field_name day : String) : List FieldCorrection :=
  if day ≠ "" ∧ !pyIsDigit day then
    [{ field := date_field_name ++ ".יום", raw_value := day, validated_value := day,
       reason := "Day must be numeric", auto_corrected := false,
       issue_type := "quality" }]
  else if day ≠ "" ∧ pyIsDigit day ∧ ¬(1 ≤ strToNat day ∧ strToNat day ≤ 31) then
    [{ field := date_field_name ++ ".יום", raw_value := day, validated_value := day,
       reason := "Day must be 1-31, got " ++ day, auto_corrected := false,
       issue_type := "quality" }]
  else []

/-- Month chain of a date composite (`validation_service.py` lines 370-393). -/
def checkMonth (date_field_name month : String) : List FieldCorrection :=
  if month ≠ "" ∧ !pyIsDigit month then
    [{ field := date_field_name ++ ".חודש", raw_value := month,
       validated_value := month, reason := "Month must be numeric",
       auto_corrected := false, issue_type := "quality" }]
  else if month ≠ "" ∧ pyIsDigit month ∧ ¬(1 ≤ strToNat month ∧ strToNat month ≤ 12) then
    [{ field := date_field_name ++ ".חודש", raw_value := month,
       validated_value := month, reason := "Month must be 1-12, got " ++ month,
       auto_corrected := false, issue_type := "quality" }]
  else []

/-- Year chain of a date composite (`validation_service.py` lines 395-421). -/
def checkYear (date_field_name year : String) : List FieldCorrection :=
  if year ≠ "" ∧ !pyIsDigit year then
    [{ field := date_field_name ++ ".שנה", raw_value := year, validated_value := year,
       reason := "Year must be numeric", auto_corrected := false,
       issue_type := "quality" }]
  else if year ≠ "" ∧ pyIsDigit year
      ∧ ¬(1900 ≤ strToNat year ∧ strToNat year ≤ currentYear + 1) then
    [{ field := date_field_name ++ ".שנה", raw_value := year, validated_value := year,
       reason := "Year should be 1900-" ++ toString (currentYear + 1) ++ ", got " ++ year,
       auto_corrected := false, issue_type := "quality" }]
  else []

/-- One iteration of the date loop (`validation_service.py` lines 342-421). -/
def checkDateComposite (date_field_name : String) (es : List (String × String)) :
    List FieldCorrection :=
  checkDay date_field_name (entriesGetStr es "יום")
    ++ checkMonth date_field_name (entriesGetStr es "חודש")
    ++ checkYear date_field_name (entriesGetStr es "שנה")

/-- Postal code chain (`validation_service.py` lines 423-452). -/
def checkPostalCode (postal_code : String) : List FieldCorrection :=
  if postal_code ≠ "" then
    let cleaned := stripIdSeparators postal_code
    if !pyIsDigit cleaned then
      [{ field := "כתובת.מיקוד", raw_value := postal_code,
         validated_value := postal_code, reason := "Postal code must be numeric",
         auto_corrected := false, issue_type := "quality" }]
    else if ¬(5 ≤ cleaned.length ∧ cleaned.length ≤ 7) then
      [{ field := "כתובת.מיקוד", raw_value := postal_code,
         validated_value := postal_code,
         reason := "Postal code should be 5-7 digits, got " ++ toString cleaned.length,
         auto_corrected := false, issue_type := "quality" }]
    else []
  else []

/-- `ValidationService._check_field_quality`: the full rule set over the
dumped dict, in source order — ID, mobile, landline, the four date
composites, postal code. -/
def check_field_quality (validated_dict : List (String × DumpVal)) :
    List FieldCorrection :=
  checkIdNumber (dictGetStr validated_dict "מספר זהות")
    ++ checkMobilePhone (dictGetStr validated_dict "טלפון נייד")
    ++ checkLandlinePhone (dictGetStr validated_dict "טלפון קווי")
    ++ checkDateComposite "תאריך לידה" (dictGetEntries validated_dict "תאריך לידה")
    ++ checkDateComposite "תאריך הפגיעה" (dictGetEntries validated_dict "תאריך הפגיעה")
    ++ checkDateComposite "תאריך מילוי הטופס"
        (dictGetEntries validated_dict "תאריך מילוי הטופס")
    ++ checkDateComposite "תאריך קבלת הטופס בקופה"
        (dictGetEntries validated_dict "תאריך קבלת הטופס בקופה")
    ++ checkPostalCode
        (entriesGetStr (dictGetEntries validated_dict "כתובת") "מיקוד")

/-! ## Correction tracking (`validation_service.py` lines 92-186) -/

/-- `ValidationService._get_reason`: human-readable reason for a correction,
chosen by substring tests on the field path. -/
def get_reason (field : String) : String :=
  if strContains field "טלפון" || strContains field "Phone" then
    if strContains field "נייד" || strContains field.toLower "mobile" then
      "Israeli mobile phone numbers must start with 05"
    else "Phone number format corrected"
  else if strContains field "זהות" || strContains field "idNumber" then
    "Israeli ID number normalized to 9 digits"
  else if strContains field "תאריך" || strContains field.toLower "date" then
    "Date format normalized"
  else if strContains field "כתובת" || strContains field.toLower "address" then
    "Address field normalized"
  else "Field value normalized during validation"

/-- Python truthiness of a raw `dict.get` result: `None`, `""` and `{}` are
falsy. -/
def optValFalsy : Option DumpVal → Bool
  | none => true
  | some (.s v) => v == ""
  | some (.d es) => es.isEmpty

/-- Python `str(value)` on a raw `dict.get` result.  `str(None)` is
`"None"`; the dict case renders the entries (its exact text is irrelevant:
in this development the raw dict always has the same shape as the validated
dict, so a dict value is never compared against a scalar). -/
def optValStr : Option DumpVal → String
  | none => "None"
  | some (.s v) => v
  | some (.d es) => String.intercalate ", " (es.map fun e => e.1 ++ ": " ++ e.2)

/-- Python `str(value)` on a nested raw `dict.get` result. -/
def optStr : Option String → String
  | none => "None"
  | some v => v

/-- Truthiness of a nested raw `dict.get` result. -/
def optStrFalsy : Option String → Bool
  | none => true
  | some v => v == ""

/-- `ValidationService._compare_nested`: compare one nested dict of the
validated dump against the raw value under the same key. -/
def compare_nested (parent_key : String) (raw_value : Option DumpVal)
    (validated_value : List (String × String)) : List FieldCorrection :=
  match raw_value with
  | some (.d raw_es) =>
    validated_value.foldr
      (fun (kv : String × String) acc =>
        let raw_nested := List.lookup kv.1 raw_es
        (if optStr raw_nested ≠ kv.2 then
          [{ field := parent_key ++ "." ++ kv.1,
             raw_value := if !optStrFalsy raw_nested then optStr raw_nested else "",
             validated_value := if kv.2 ≠ "" then kv.2 else "",
             reason := get_reason (parent_key ++ "." ++ kv.1),
             auto_corrected := true }]
        else []) ++ acc)
      []
  | _ => []

/-- `ValidationService._find_corrections`: walk the validated dict's keys and
compare each value with the raw dict's value under the same key. -/
def find_corrections (raw_dict : List (String × DumpVal)) :
    List (String × DumpVal) → List FieldCorrection
  | [] => []
  | (key, validated_value) :: rest =>
    let raw_value := dictGet raw_dict key
    (if optValFalsy raw_value && optValFalsy (some validated_value) then []
     else
       match validated_value with
       | .d es => compare_nested key raw_value es
       | .s sv =>
         if optValStr raw_value ≠ sv then
           [{ field := key,
              raw_value := if !optValFalsy raw_value then optValStr raw_value else "",
              validated_value := if sv ≠ "" then sv else "",
              reason := get_reason key, auto_corrected := true }]
         else [])
      ++ find_corrections raw_dict rest

/-! ## Field counting and missing-field enumeration
(`validation_service.py` lines 188-215) -/

/-- `ValidationService._count_non_empty_fields` on a nested (flat) dict:
number of non-empty values. -/
def countEntriesNonEmpty (es : List (String × String)) : Nat :=
  es.countP (fun kv => kv.2 != "")

/-- `ValidationService._count_non_empty_fields`: total non-empty leaves of
the dumped dict, recursing into nested dicts. -/
def count_non_empty_fields (data_dict : List (String × DumpVal)) : Nat :=
  (data_dict.map fun kv =>
    match kv.2 with
    | .s v => if v ≠ "" then 1 else 0
    | .d es => countEntriesNonEmpty es).sum

/-- `ValidationService._get_missing_fields` on a nested dict: dotted paths of
its empty values. -/
def missingEntries (es : List (String × String)) (pfx : String) : List String :=
  es.filterMap fun kv => if kv.2 = "" then some (pfx ++ "." ++ kv.1) else none

/-- `ValidationService._get_missing_fields`: dotted paths of all empty leaves
of the dumped dict, in dict order. -/
def get_missing_fields : List (String × DumpVal) → (pfx : String) → List String
  | [], _ => []
  | (key, value) :: rest, pfx =>
    let full_key := if pfx = "" then key else pfx ++ "." ++ key
    (match value with
     | .s v => if v = "" then [full_key] else []
     | .d es => missingEntries es full_key)
      ++ get_missing_fields rest pfx

/-! ## Validation engine (`validation_service.py` lines 25-90) -/

/-- Round-half-even of a rational, modelling the rounding of Python's
`f"{x:.1f}"` formatting (applied to `x * 10`). -/
def roundHalfEven (x : ℚ) : ℤ :=
  let fl := x.floor
  let frac := x - fl
  if frac < 1 / 2 then fl
  else if 1 / 2 < frac then fl + 1
  else if fl % 2 = 0 then fl else fl + 1

/-- Python `f"{x:.1f}"` for the non-negative scores of the summary string. -/
def formatOneDecimal (x : ℚ) : String :=
  let n := roundHalfEven (x * 10)
  toString (n / 10) ++ "." ++ toString (n % 10)

/-- `ValidationService.validate`: compare the raw extraction dict against the
validated form, collect corrections and quality issues, and assemble the
report (`validation_service.py` lines 25-90). -/
def validate (raw_extracted : List (String × DumpVal)) (validated_form : Form283Data) :
    ValidationReport :=
  let validated_dict := dump validated_form
  let corrections := find_corrections raw_extracted validated_dict
    ++ check_field_quality validated_dict
  let total_fields := count_non_empty_fields validated_dict
  let unchanged_fields : ℤ := (total_fields : ℤ) - (corrections.length : ℤ)
  let accuracy_score : ℚ :=
    if 0 < total_fields then (unchanged_fields : ℚ) / (total_fields : ℚ) * 100
    else 100
  let filled_count := validated_form.get_filled_fields_count.1
  let total_count := validated_form.get_filled_fields_count.2
  let completeness_score := validated_form.get_completeness_percentage
  let missing_fields := get_missing_fields validated_dict ""
  let auto_corrections_count := corrections.countP (fun c => c.auto_corrected)
  let quality_issues_count := corrections.countP (fun c => !c.auto_corrected)
  let summary :=
    "Validation passed. " ++ toString filled_count ++ "/" ++ toString total_count
      ++ " fields filled (" ++ formatOneDecimal completeness_score ++ "%). "
      ++ toString unchanged_fields ++ "/" ++ toString total_fields
      ++ " data fields accurate (" ++ formatOneDecimal accuracy_score ++ "%). "
      ++ toString auto_corrections_count ++ " field(s) auto-corrected, "
      ++ toString quality_issues_count ++ " quality issue(s) detected."
  { is_valid := true
    accuracy_score := accuracy_score
    completeness_score := completeness_score
    corrections := corrections
    filled_count := filled_count
    total_count := total_count
    missing_fields := missing_fields
    summary := summary }

/-- The spec's single-argument `validate(record)` (§4.3, quality-only model
of design note §9): the engine applied with the raw extraction equal to the
record's own dump, so that no Pydantic auto-correction delta exists and the
issue list is exactly the quality rule set's output. -/
def validateRecord (record : Form283Data) : ValidationReport :=
  validate (dump record) record

/-! ## Dotted-path addressing and spec-side definitions -/

/-- The value of the record's leaf field addressed by a dotted path of the
dumped dict (`""` for paths that address no leaf).  This is the addressing
scheme of spec §3: scalar fields by their alias, composite sub-fields by
`<composite>.<sub-field>`. -/
def leafValue (f : Form283Data) (path : String) : String :=
  match path with
  | "שם משפחה" => f.lastName
  | "שם פרטי" => f.firstName
  | "מספר זהות" => f.idNumber
  | "מין" => f.gender
  | "תאריך לידה.יום" => f.dateOfBirth.day
  | "תאריך לידה.חודש" => f.dateOfBirth.month
  | "תאריך לידה.שנה" => f.dateOfBirth.year
  | "כתובת.רחוב" => f.address.street
  | "כתובת.מספר בית" => f.address.houseNumber
  | "כתובת.כניסה" => f.address.entrance
  | "כתובת.דירה" => f.address.apartment
  | "כתובת.ישוב" => f.address.city
  | "כתובת.מיקוד" => f.address.postalCode
  | "כתובת.תא דואר" => f.address.poBox
  | "טלפון קווי" => f.landlinePhone
  | "טלפון נייד" => f.mobilePhone
  | "סוג העבודה" => f.jobType
  | "תאריך הפגיעה.יום" => f.dateOfInjury.day
  | "תאריך הפגיעה.חודש" => f.dateOfInjury.month
  | "תאריך הפגיעה.שנה" => f.dateOfInjury.year
  | "שעת הפגיעה" => f.timeOfInjury
  | "מקום התאונה" => f.accidentLocation
  | "כתובת מקום התאונה" => f.accidentAddress
  | "תיאור התאונה" => f.accidentDescription
  | "האיבר שנפגע" => f.injuredBodyPart
  | "חתימה" => f.signature
  | "תאריך מילוי הטופס.יום" => f.formFillingDate.day
  | "תאריך מילוי הטופס.חודש" => f.formFillingDate.month
  | "תאריך מילוי הטופס.שנה" => f.formFillingDate.year
  | "תאריך קבלת הטופס בקופה.יום" => f.formReceiptDateAtClinic.day
  | "תאריך קבלת הטופס בקופה.חודש" => f.formReceiptDateAtClinic.month
  | "תאריך קבלת הטופס בקופה.שנה" => f.formReceiptDateAtClinic.year
  | "למילוי ע\"י המוסד הרפואי.חבר בקופת חולים" =>
      f.medicalInstitutionFields.healthFundMember
  | "למילוי ע\"י המוסד הרפואי.מהות התאונה" =>
      f.medicalInstitutionFields.natureOfAccident
  | "למילוי ע\"י המוסד הרפואי.אבחנות רפואיות" =>
      f.medicalInstitutionFields.medicalDiagnoses
  | _ => ""

/-- Modelled from the spec (§4.1, claim C2's wording), for refinement
comparison with `Form283Data.get_filled_fields_count`: one increment per
logical unit — a non-empty scalar, a date composite with not all three
components empty, the address composite with not all seven components empty,
or a non-empty medical scalar. -/
def filledUnitsSpec (f : Form283Data) : Nat :=
  (if f.lastName != "" then 1 else 0) + (if f.firstName != "" then 1 else 0)
    + (if f.idNumber != "" then 1 else 0) + (if f.gender != "" then 1 else 0)
    + (if f.landlinePhone != "" then 1 else 0)
    + (if f.mobilePhone != "" then 1 else 0)
    + (if f.jobType != "" then 1 else 0) + (if f.timeOfInjury != "" then 1 else 0)
    + (if f.accidentLocation != "" then 1 else 0)
    + (if f.accidentAddress != "" then 1 else 0)
    + (if f.accidentDescription != "" then 1 else 0)
    + (if f.injuredBodyPart != "" then 1 else 0)
    + (if f.signature != "" then 1 else 0)
    + (if !f.dateOfBirth.is_empty then 1 else 0)
    + (if !f.dateOfInjury.is_empty then 1 else 0)
    + (if !f.formFillingDate.is_empty then 1 else 0)
    + (if !f.formReceiptDateAtClinic.is_empty then 1 else 0)
    + (if !f.address.is_empty then 1 else 0)
    + (if f.medicalInstitutionFields.healthFundMember != "" then 1 else 0)
    + (if f.medicalInstitutionFields.natureOfAccident != "" then 1 else 0)
    + (if f.medicalInstitutionFields.medicalDiagnoses != "" then 1 else 0)

/-! ## Concrete records used in scenarios and counterexamples -/

/-- The fully empty `FormRecord` of spec scenario F. -/
def emptyForm : Form283Data := {}

/-- A record whose only content is the mobile phone `"abc1234567"`
(the short-circuit scenario of spec §8). -/
def mobileLettersForm : Form283Data := { mobilePhone := "abc1234567" }

/-- A record whose only content is a filled date-of-birth composite with an
out-of-range year: one filled logical unit, three non-empty leaves, one
quality issue. -/
def dobYear1800Form : Form283Data :=
  { dateOfBirth := { day := "1", month := "1", year := "1800" } }

/-- A record whose only content is an `"05"`-prefixed 13-digit landline. -/
def landline05LongForm : Form283Data := { landlinePhone := "0512345678901" }

/-- A record with the given last name and nothing else. -/
def lastNameOnlyForm (s : String) : Form283Data := { lastName := s }

/-! ## Structural lemmas about the rule set -/

theorem check_field_quality_dump (f : Form283Data) :
    check_field_quality (dump f) =
      checkIdNumber f.idNumber ++ checkMobilePhone f.mobilePhone
        ++ checkLandlinePhone f.landlinePhone
        ++ checkDateComposite "תאריך לידה" (dumpDate f.dateOfBirth)
        ++ checkDateComposite "תאריך הפגיעה" (dumpDate f.dateOfInjury)
        ++ checkDateComposite "תאריך מילוי הטופס" (dumpDate f.formFillingDate)
        ++ checkDateComposite "תאריך קבלת הטופס בקופה"
            (dumpDate f.formReceiptDateAtClinic)
        ++ checkPostalCode f.address.postalCode := rfl

theorem checkDateComposite_dumpDate (n : String) (d : DateField) :
    checkDateComposite n (dumpDate d) =
      checkDay n d.day ++ checkMonth n d.month ++ checkYear n d.year := rfl

theorem mem_checkIdNumber {v : String} {i : FieldCorrection}
    (h : i ∈ checkIdNumber v) :
    i.field = "מספר זהות" ∧ i.raw_value = v ∧ i.validated_value = v ∧ v ≠ "" := by
  simp only [checkIdNumber] at h
  split_ifs at h <;> simp_all

theorem length_checkIdNumber (v : String) : (checkIdNumber v).length ≤ 1 := by
  simp only [checkIdNumber]
  split_ifs <;> simp

theorem mem_checkMobilePhone {v : String} {i : FieldCorrection}
    (h : i ∈ checkMobilePhone v) :
    i.field = "טלפון נייד" ∧ i.raw_value = v ∧ i.validated_value = v ∧ v ≠ "" := by
  simp only [checkMobilePhone] at h
  split_ifs at h <;> simp_all

theorem length_checkMobilePhone (v : String) : (checkMobilePhone v).length ≤ 1 := by
  simp only [checkMobilePhone]
  split_ifs <;> simp

theorem mem_checkLandlinePhone {v : String} {i : FieldCorrection}
    (h : i ∈ checkLandlinePhone v) :
    i.field = "טלפון קווי" ∧ i.raw_value = v ∧ i.validated_value = v ∧ v ≠ "" := by
  simp only [checkLandlinePhone] at h
  split_ifs at h <;> simp_all

theorem length_checkLandlinePhone (v : String) :
    (checkLandlinePhone v).length ≤ 1 := by
  simp only [checkLandlinePhone]
  split_ifs <;> simp

theorem mem_checkDay {n v : String} {i : FieldCorrection} (h : i ∈ checkDay n v) :
    i.field = n ++ ".יום" ∧ i.raw_value = v ∧ i.validated_value = v ∧ v ≠ "" := by
  simp only [checkDay] at h
  split_ifs at h <;> simp_all

theorem length_checkDay (n v : String) : (checkDay n v).length ≤ 1 := by
  simp only [checkDay]
  split_ifs <;> simp

theorem mem_checkMonth {n v : String} {i : FieldCorrection}
    (h : i ∈ checkMonth n v) :
    i.field = n ++ ".חודש" ∧ i.raw_value = v ∧ i.validated_value = v ∧ v ≠ "" := by
  simp only [checkMonth] at h
  split_ifs at h <;> simp_all

theorem length_checkMonth (n v : String) : (checkMonth n v).length ≤ 1 := by
  simp only [checkMonth]
  split_ifs <;> simp

theorem mem_checkYear {n v : String} {i : FieldCorrection} (h : i ∈ checkYear n v) :
    i.field = n ++ ".שנה" ∧ i.raw_value = v ∧ i.validated_value = v ∧ v ≠ "" := by
  simp only [checkYear] at h
  split_ifs at h <;> simp_all

theorem length_checkYear (n v : String) : (checkYear n v).length ≤ 1 := by
  simp only [checkYear]
  split_ifs <;> simp

theorem mem_checkPostalCode {v : String} {i : FieldCorrection}
    (h : i ∈ checkPostalCode v) :
    i.field = "כתובת.מיקוד" ∧ i.raw_value = v ∧ i.validated_value = v ∧ v ≠ "" := by
  simp only [checkPostalCode] at h
  split_ifs at h <;> simp_all

theorem length_checkPostalCode (v : String) : (checkPostalCode v).length ≤ 1 := by
  simp only [checkPostalCode]
  split_ifs <;> simp

/-- With the raw dict equal to the record's own dump, the Pydantic-delta pass
finds nothing: every key compares equal to itself. -/
theorem find_corrections_self (f : Form283Data) :
    find_corrections (dump f) (dump f) = [] := by
  simp [find_corrections, dump, dictGet, compare_nested, dumpDate, dumpAddress,
    dumpMedical, optValFalsy, optValStr, optStr, optStrFalsy, List.lookup]

/-- The sixteen dotted field paths the quality rule set can address, in rule
order. -/
def fieldPaths : List String :=
  ["מספר זהות", "טלפון נייד", "טלפון קווי",
   "תאריך לידה.יום", "תאריך לידה.חודש", "תאריך לידה.שנה",
   "תאריך הפגיעה.יום", "תאריך הפגיעה.חודש", "תאריך הפגיעה.שנה",
   "תאריך מילוי הטופס.יום", "תאריך מילוי הטופס.חודש", "תאריך מילוי הטופס.שנה",
   "תאריך קבלת הטופס בקופה.יום", "תאריך קבלת הטופס בקופה.חודש",
   "תאריך קבלת הטופס בקופה.שנה", "כתובת.מיקוד"]

/-- Every issue the quality rule set emits carries the addressed leaf field's
value verbatim in both value slots, that value is non-empty, and the field is
one of the sixteen checked paths. -/
theorem mem_check_field_quality {f : Form283Data} {i : FieldCorrection}
    (h : i ∈ check_field_quality (dump f)) :
    i.validated_value = i.raw_value ∧ i.raw_value ≠ ""
      ∧ leafValue f i.field = i.raw_value ∧ i.field ∈ fieldPaths := by
  rw [check_field_quality_dump] at h
  simp only [checkDateComposite_dumpDate, List.mem_append, or_assoc] at h
  rcases h with h | h | h | h | h | h | h | h | h | h | h | h | h | h | h | h
  · obtain ⟨hf, hr, hv, hne⟩ := mem_checkIdNumber h
    exact ⟨hv.trans hr.symm, by rw [hr]; exact hne, by rw [hf, hr]; rfl, by rw [hf]; decide⟩
  · obtain ⟨hf, hr, hv, hne⟩ := mem_checkMobilePhone h
    exact ⟨hv.trans hr.symm, by rw [hr]; exact hne, by rw [hf, hr]; rfl, by rw [hf]; decide⟩
  · obtain ⟨hf, hr, hv, hne⟩ := mem_checkLandlinePhone h
    exact ⟨hv.trans hr.symm, by rw [hr]; exact hne, by rw [hf, hr]; rfl, by rw [hf]; decide⟩
  · obtain ⟨hf, hr, hv, hne⟩ := mem_checkDay h
    exact ⟨hv.trans hr.symm, by rw [hr]; exact hne, by rw [hf, hr]; rfl, by rw [hf]; decide⟩
  · obtain ⟨hf, hr, hv, hne⟩ := mem_checkMonth h
    exact ⟨hv.trans hr.symm, by rw [hr]; exact hne, by rw [hf, hr]; rfl, by rw [hf]; decide⟩
  · obtain ⟨hf, hr, hv, hne⟩ := mem_checkYear h
    exact ⟨hv.trans hr.symm, by rw [hr]; exact hne, by rw [hf, hr]; rfl, by rw [hf]; decide⟩
  · obtain ⟨hf, hr, hv, hne⟩ := mem_checkDay h
    exact ⟨hv.trans hr.symm, by rw [hr]; exact hne, by rw [hf, hr]; rfl, by rw [hf]; decide⟩
  · obtain ⟨hf, hr, hv, hne⟩ := mem_checkMonth h
    exact ⟨hv.trans hr.symm, by rw [hr]; exact hne, by rw [hf, hr]; rfl, by rw [hf]; decide⟩
  · obtain ⟨hf, hr, hv, hne⟩ := mem_checkYear h
    exact ⟨hv.trans hr.symm, by rw [hr]; exact hne, by rw [hf, hr]; rfl, by rw [hf]; decide⟩
  · obtain ⟨hf, hr, hv, hne⟩ := mem_checkDay h
    exact ⟨hv.trans hr.symm, by rw [hr]; exact hne, by rw [hf, hr]; rfl, by rw [hf]; decide⟩
  · obtain ⟨hf, hr, hv, hne⟩ := mem_checkMonth h
    exact ⟨hv.trans hr.symm, by rw [hr]; exact hne, by rw [hf, hr]; rfl, by rw [hf]; decide⟩
  · obtain ⟨hf, hr, hv, hne⟩ := mem_checkYear h
    exact ⟨hv.trans hr.symm, by rw [hr]; exact hne, by rw [hf, hr]; rfl, by rw [hf]; decide⟩
  · obtain ⟨hf, hr, hv, hne⟩ := mem_checkDay h
    exact ⟨hv.trans hr.symm, by rw [hr]; exact hne, by rw [hf, hr]; rfl, by rw [hf]; decide⟩
  · obtain ⟨hf, hr, hv, hne⟩ := mem_checkMonth h
    exact ⟨hv.trans hr.symm, by rw [hr]; exact hne, by rw [hf, hr]; rfl, by rw [hf]; decide⟩
  · obtain ⟨hf, hr, hv, hne⟩ := mem_checkYear h
    exact ⟨hv.trans hr.symm, by rw [hr]; exact hne, by rw [hf, hr]; rfl, by rw [hf]; decide⟩
  · obtain ⟨hf, hr, hv, hne⟩ := mem_checkPostalCode h
    exact ⟨hv.trans hr.symm, by rw [hr]; exact hne, by rw [hf, hr]; rfl, by rw [hf]; decide⟩

/-- The report's issue list under the spec's quality-only `validate(record)`
is exactly the quality rule set's output. -/
theorem validateRecord_corrections (f : Form283Data) :
    (validateRecord f).corrections = check_field_quality (dump f) := by
  simp [validateRecord, validate, find_corrections_self]

/-- Helper: a chain whose issues all address one field contributes at most
one issue to a given path, and zero to any other path. -/
theorem countP_field_le_of_all {l : List FieldCorrection} {F : String}
    (hf : ∀ i ∈ l, i.field = F) (hl : l.length ≤ 1) (path : String) :
    l.countP (fun i => i.field == path) ≤ if path = F then 1 else 0 := by
  by_cases hp : path = F
  · rw [if_pos hp]
    exact le_trans (List.countP_le_length _) hl
  · rw [if_neg hp, Nat.le_zero, List.countP_eq_zero]
    intro a ha
    simp only [hf a ha, beq_iff_eq]
    exact fun e => hp e.symm

theorem countP_check_field_quality_le (f : Form283Data) (path : String) :
    (check_field_quality (dump f)).countP (fun i => i.field == path) ≤ 1 := by
  rw [check_field_quality_dump]
  simp only [checkDateComposite_dumpDate, List.countP_append]
  have h1 := countP_field_le_of_all (fun i hi => (mem_checkIdNumber hi).1)
    (length_checkIdNumber f.idNumber) path
  have h2 := countP_field_le_of_all (fun i hi => (mem_checkMobilePhone hi).1)
    (length_checkMobilePhone f.mobilePhone) path
  have h3 := countP_field_le_of_all (fun i hi => (mem_checkLandlinePhone hi).1)
    (length_checkLandlinePhone f.landlinePhone) path
  have h4 := countP_field_le_of_all (F := "תאריך לידה.יום") (l := checkDay "תאריך לידה" f.dateOfBirth.day)
    (fun i hi => by rw [(mem_checkDay hi).1]; rfl) (length_checkDay _ _) path
  have h5 := countP_field_le_of_all (F := "תאריך לידה.חודש") (l := checkMonth "תאריך לידה" f.dateOfBirth.month)
    (fun i hi => by rw [(mem_checkMonth hi).1]; rfl) (length_checkMonth _ _) path
  have h6 := countP_field_le_of_all (F := "תאריך לידה.שנה") (l := checkYear "תאריך לידה" f.dateOfBirth.year)
    (fun i hi => by rw [(mem_checkYear hi).1]; rfl) (length_checkYear _ _) path
  have h7 := countP_field_le_of_all (F := "תאריך הפגיעה.יום") (l := checkDay "תאריך הפגיעה" f.dateOfInjury.day)
    (fun i hi => by rw [(mem_checkDay hi).1]; rfl) (length_checkDay _ _) path
  have h8 := countP_field_le_of_all (F := "תאריך הפגיעה.חודש") (l := checkMonth "תאריך הפגיעה" f.dateOfInjury.month)
    (fun i hi => by rw [(mem_checkMonth hi).1]; rfl) (length_checkMonth _ _) path
  have h9 := countP_field_le_of_all (F := "תאריך הפגיעה.שנה") (l := checkYear "תאריך הפגיעה" f.dateOfInjury.year)
    (fun i hi => by rw [(mem_checkYear hi).1]; rfl) (length_checkYear _ _) path
  have h10 := countP_field_le_of_all (F := "תאריך מילוי הטופס.יום") (l := checkDay "תאריך מילוי הטופס" f.formFillingDate.day)
    (fun i hi => by rw [(mem_checkDay hi).1]; rfl) (length_checkDay _ _) path
  have h11 := countP_field_le_of_all (F := "תאריך מילוי הטופס.חודש") (l := checkMonth "תאריך מילוי הטופס" f.formFillingDate.month)
    (fun i hi => by rw [(mem_checkMonth hi).1]; rfl) (length_checkMonth _ _) path
  have h12 := countP_field_le_of_all (F := "תאריך מילוי הטופס.שנה") (l := checkYear "תאריך מילוי הטופס" f.formFillingDate.year)
    (fun i hi => by rw [(mem_checkYear hi).1]; rfl) (length_checkYear _ _) path
  have h13 := countP_field_le_of_all (F := "תאריך קבלת הטופס בקופה.יום") (l := checkDay "תאריך קבלת הטופס בקופה" f.formReceiptDateAtClinic.day)
    (fun i hi => by rw [(mem_checkDay hi).1]; rfl) (length_checkDay _ _) path
  have h14 := countP_field_le_of_all (F := "תאריך קבלת הטופס בקופה.חודש") (l := checkMonth "תאריך קבלת הטופס בקופה" f.formReceiptDateAtClinic.month)
    (fun i hi => by rw [(mem_checkMonth hi).1]; rfl) (length_checkMonth _ _) path
  have h15 := countP_field_le_of_all (F := "תאריך קבלת הטופס בקופה.שנה") (l := checkYear "תאריך קבלת הטופס בקופה" f.formReceiptDateAtClinic.year)
    (fun i hi => by rw [(mem_checkYear hi).1]; rfl) (length_checkYear _ _) path
  have h16 := countP_field_le_of_all (fun i hi => (mem_checkPostalCode hi).1)
    (length_checkPostalCode f.address.postalCode) path
  have hs : (if path = "מספר זהות" then 1 else 0) + (if path = "טלפון נייד" then 1 else 0)
      + (if path = "טלפון קווי" then 1 else 0)
      + (if path = "תאריך לידה.יום" then 1 else 0)
      + (if path = "תאריך לידה.חודש" then 1 else 0)
      + (if path = "תאריך לידה.שנה" then 1 else 0)
      + (if path = "תאריך הפגיעה.יום" then 1 else 0)
      + (if path = "תאריך הפגיעה.חודש" then 1 else 0)
      + (if path = "תאריך הפגיעה.שנה" then 1 else 0)
      + (if path = "תאריך מילוי הטופס.יום" then 1 else 0)
      + (if path = "תאריך מילוי הטופס.חודש" then 1 else 0)
      + (if path = "תאריך מילוי הטופס.שנה" then 1 else 0)
      + (if path = "תאריך קבלת הטופס בקופה.יום" then 1 else 0)
      + (if path = "תאריך קבלת הטופס בקופה.חודש" then 1 else 0)
      + (if path = "תאריך קבלת הטופס בקופה.שנה" then 1 else 0)
      + (if path = "כתובת.מיקוד" then 1 else 0) ≤ 1 := by
    by_cases p1 : path = "מספר זהות"
    · subst p1; decide
    by_cases p2 : path = "טלפון נייד"
    · subst p2; decide
    by_cases p3 : path = "טלפון קווי"
    · subst p3; decide
    by_cases p4 : path = "תאריך לידה.יום"
    · subst p4; decide
    by_cases p5 : path = "תאריך לידה.חודש"
    · subst p5; decide
    by_cases p6 : path = "תאריך לידה.שנה"
    · subst p6; decide
    by_cases p7 : path = "תאריך הפגיעה.יום"
    · subst p7; decide
    by_cases p8 : path = "תאריך הפגיעה.חודש"
    · subst p8; decide
    by_cases p9 : path = "תאריך הפגיעה.שנה"
    · subst p9; decide
    by_cases p10 : path = "תאריך מילוי הטופס.יום"
    · subst p10; decide
    by_cases p11 : path = "תאריך מילוי הטופס.חודש"
    · subst p11; decide
    by_cases p12 : path = "תאריך מילוי הטופס.שנה"
    · subst p12; decide
    by_cases p13 : path = "תאריך קבלת הטופס בקופה.יום"
    · subst p13; decide
    by_cases p14 : path = "תאריך קבלת הטופס בקופה.חודש"
    · subst p14; decide
    by_cases p15 : path = "תאריך קבלת הטופס בקופה.שנה"
    · subst p15; decide
    by_cases p16 : path = "כתובת.מיקוד"
    · subst p16; decide
    simp [p1, p2, p3, p4, p5, p6, p7, p8, p9, p10, p11, p12, p13, p14, p15, p16]
  omega

/-- Python `s.startswith("05")` implies `s.startswith("0")`. -/
theorem pyStartsWith_0_of_05 {s : String} (h : pyStartsWith s "05" = true) :
    pyStartsWith s "0" = true := by
  unfold pyStartsWith at h ⊢
  rw [List.isPrefixOf_iff_prefix] at h ⊢
  exact List.IsPrefix.trans (by decide) h

theorem checkLandlinePhone_eq_nil {v : String}
    (h1 : pyIsDigit (stripPhoneSeparators v) = true)
    (h2 : pyStartsWith (stripPhoneSeparators v) "05" = true) :
    checkLandlinePhone v = [] := by
  have h0 := pyStartsWith_0_of_05 h2
  unfold checkLandlinePhone
  split_ifs <;> simp_all

theorem validateRecord_accuracy (f : Form283Data) :
    (validateRecord f).accuracy_score =
      if 0 < count_non_empty_fields (dump f) then
        ((count_non_empty_fields (dump f) : ℚ)
            - ((check_field_quality (dump f)).length : ℚ))
          / (count_non_empty_fields (dump f) : ℚ) * 100
      else 100 := by
  simp only [validateRecord, validate, find_corrections_self, List.nil_append]
  split_ifs with h
  · push_cast
    ring
  · rfl

theorem check_field_ne_lastName {f : Form283Data} {i : FieldCorrection}
    (h : i ∈ check_field_quality (dump f)) : i.field ≠ "שם משפחה" := by
  intro he
  have h4 := (mem_check_field_quality h).2.2.2
  rw [he] at h4
  exact absurd h4 (by decide)

/-! ## Claims -/

theorem validateRecord_completeness (f : Form283Data) :
    (validateRecord f).completeness_score = f.get_completeness_percentage := by
  simp [validateRecord, validate]

/-- Claim C1, counterexample: on a record whose only content is a filled
date-of-birth composite with year 1800, the completeness counter reports one
filled unit and the rule set one issue, so the claim predicts accuracy
`(1 - 1) / 1 * 100 = 0`; the code computes `(3 - 1) / 3 * 100 = 200/3` from
the three non-empty leaves. -/
theorem claim1_counterexample :
    (validateRecord dobYear1800Form).filled_count = 1
      ∧ (validateRecord dobYear1800Form).corrections.length = 1
      ∧ (validateRecord dobYear1800Form).accuracy_score = 200 / 3
      ∧ ((200 : ℚ) / 3) ≠ ((1 : ℚ) - 1) / 1 * 100 := by
  refine ⟨by decide, by decide, ?_, by norm_num⟩
  rw [validateRecord_accuracy]
  norm_num [show count_non_empty_fields (dump dobYear1800Form) = 3 from by decide,
    show (check_field_quality (dump dobYear1800Form)).length = 1 from by decide]

/-- Claim C1 (amended): the accuracy score is scoped to the non-empty leaf
fields counted by `_count_non_empty_fields` (not to the completeness
counter's filled logical units): `(N - issues) / N * 100` when `N > 0`, else
`100.0`. -/
theorem claim1_accuracy_scoped_to_nonempty_leaves (f : Form283Data) :
    (0 < count_non_empty_fields (dump f) →
      (validateRecord f).accuracy_score =
        ((count_non_empty_fields (dump f) : ℚ)
            - ((validateRecord f).corrections.length : ℚ))
          / (count_non_empty_fields (dump f) : ℚ) * 100)
    ∧ (count_non_empty_fields (dump f) = 0 →
        (validateRecord f).accuracy_score = 100) := by
  rw [validateRecord_accuracy, validateRecord_corrections]
  constructor
  · intro h
    rw [if_pos h]
  · intro h
    rw [if_neg (by omega)]

/-- Claim C1, witness at the concrete record. -/
theorem claim1_witness :
    0 < count_non_empty_fields (dump dobYear1800Form)
      ∧ (validateRecord dobYear1800Form).accuracy_score =
          ((count_non_empty_fields (dump dobYear1800Form) : ℚ)
              - ((validateRecord dobYear1800Form).corrections.length : ℚ))
            / (count_non_empty_fields (dump dobYear1800Form) : ℚ) * 100 :=
  ⟨by decide, (claim1_accuracy_scoped_to_nonempty_leaves dobYear1800Form).1 (by decide)⟩

/-- Claim C2 (confirmed): the completeness counter returns
`(filled, total)` with `total = 21` and `filled` counting exactly the filled
logical units, and the completeness score is `filled / total * 100`. -/
theorem claim2_completeness_counter (f : Form283Data) :
    f.get_filled_fields_count = (filledUnitsSpec f, 21)
      ∧ f.get_completeness_percentage = (filledUnitsSpec f : ℚ) / 21 * 100 := by
  have h : f.get_filled_fields_count = (filledUnitsSpec f, 21) := by
    unfold Form283Data.get_filled_fields_count filledUnitsSpec
    simp only [List.countP_cons, List.countP_nil, List.length_cons,
      List.length_nil, Prod.mk.injEq, and_true]
    omega
  refine ⟨h, ?_⟩
  unfold Form283Data.get_completeness_percentage
  rw [h]
  norm_num


/-- Claim C3, counterexample: whatever string the OCR-failure marker is, the
record whose last name is `"X" ++ marker` is non-empty and contains the
marker, yet the rule set emits no issue on the last-name field — there is no
last-name rule in `_check_field_quality`. -/
theorem claim3_counterexample :
    ¬ ∃ marker : String, ∀ f : Form283Data,
        f.lastName ≠ "" → (∃ p q, f.lastName = p ++ marker ++ q) →
        ∃ i ∈ check_field_quality (dump f), i.field = "שם משפחה" := by
  rintro ⟨m, hm⟩
  have hne : ("X" ++ m : String) ≠ "" := by
    intro h
    have hlen := congrArg String.length h
    rw [String.length_append] at hlen
    have hx : ("X" : String).length = 1 := rfl
    have h0 : ("" : String).length = 0 := rfl
    rw [hx, h0] at hlen
    omega
  obtain ⟨i, hi, hf⟩ := hm (lastNameOnlyForm ("X" ++ m)) hne
    ⟨"X", "", by simp [lastNameOnlyForm]⟩
  exact check_field_ne_lastName hi hf

/-- Claim C3 (amended): the quality rule set contains no last-name rule at
all — no issue it emits is ever addressed to the last-name field. -/
theorem claim3_no_last_name_rule (f : Form283Data) :
    ∀ i ∈ check_field_quality (dump f), i.field ≠ "שם משפחה" :=
  fun _ hi => check_field_ne_lastName hi

/-- Claim C3, witness at a concrete record with one quality issue. -/
theorem claim3_witness :
    ({ field := "טלפון נייד", raw_value := "abc1234567",
       validated_value := "abc1234567",
       reason := "Phone number contains non-numeric characters",
       auto_corrected := false, issue_type := "quality" } : FieldCorrection)
        ∈ check_field_quality (dump mobileLettersForm)
      ∧ ({ field := "טלפון נייד", raw_value := "abc1234567",
           validated_value := "abc1234567",
           reason := "Phone number contains non-numeric characters",
           auto_corrected := false, issue_type := "quality" } :
            FieldCorrection).field ≠ "שם משפחה" :=
  ⟨by decide, claim3_no_last_name_rule mobileLettersForm _ (by decide)⟩

/-- Claim C4 (confirmed): the per-field chains short-circuit — for every
record and every dotted path, the rule set emits at most one issue on that
path; and the mobile value `"abc1234567"` yields exactly the one non-numeric
issue. -/
theorem claim4_short_circuit (f : Form283Data) (path : String) :
    (check_field_quality (dump f)).countP (fun i => i.field == path) ≤ 1
      ∧ check_field_quality (dump mobileLettersForm) =
          [{ field := "טלפון נייד", raw_value := "abc1234567",
             validated_value := "abc1234567",
             reason := "Phone number contains non-numeric characters",
             auto_corrected := false, issue_type := "quality" }] :=
  ⟨countP_check_field_quality_le f path, by decide⟩

/-- Claim C5, counterexample: on the fully empty record the missing-field
list has 35 entries (one per empty leaf), not 21, so scenario F as stated
fails. -/
theorem claim5_counterexample :
    ¬ ((validateRecord emptyForm).completeness_score = 0
        ∧ (validateRecord emptyForm).accuracy_score = 100
        ∧ (validateRecord emptyForm).corrections = []
        ∧ (validateRecord emptyForm).missing_fields.length = 21) :=
  fun h => absurd h.2.2.2 (by decide)

/-- Claim C5 (amended): the fully empty record yields completeness `0.0`,
accuracy `100.0`, an empty issue list, and 35 missing leaf paths. -/
theorem claim5_empty_record_scenario :
    (validateRecord emptyForm).completeness_score = 0
      ∧ (validateRecord emptyForm).accuracy_score = 100
      ∧ (validateRecord emptyForm).corrections = []
      ∧ (validateRecord emptyForm).missing_fields.length = 35 := by
  refine ⟨?_, ?_, by decide, by decide⟩
  · rw [validateRecord_completeness]
    norm_num [Form283Data.get_completeness_percentage,
      show emptyForm.get_filled_fields_count = (0, 21) from by decide]
  · rw [validateRecord_accuracy]
    norm_num [show count_non_empty_fields (dump emptyForm) = 0 from by decide]

/-- Claim C6, counterexample: at verification time the wall-clock calendar
year is 2026, so the claim's bound accepts the year `"2027"`; the code's
bound comes from the hardcoded constant `current_year = 2025` and rejects
it. -/
theorem claim6_counterexample :
    checkYear "תאריך לידה" "2027" =
        [{ field := "תאריך לידה" ++ ".שנה", raw_value := "2027",
           validated_value := "2027",
           reason := "Year should be 1900-2026, got 2027",
           auto_corrected := false, issue_type := "quality" }]
      ∧ (1900 ≤ strToNat "2027" ∧ strToNat "2027" ≤ 2026 + 1) := by
  refine ⟨by decide, by decide, by decide⟩

/-- Claim C6 (amended): for a non-empty all-digit year component the year
check accepts exactly the range `1900 ≤ year ≤ currentYear + 1` where
`currentYear` is the hardcoded constant 2025 (not a host-supplied or
wall-clock input), and otherwise emits the issue
"Year should be 1900-2026, got N". -/
theorem claim6_year_range_hardcoded (n y : String) (h1 : y ≠ "")
    (h2 : pyIsDigit y = true) :
    ((1900 ≤ strToNat y ∧ strToNat y ≤ currentYear + 1) → checkYear n y = [])
      ∧ (¬(1900 ≤ strToNat y ∧ strToNat y ≤ currentYear + 1) →
          checkYear n y =
            [{ field := n ++ ".שנה", raw_value := y, validated_value := y,
               reason := "Year should be 1900-" ++ toString (currentYear + 1)
                 ++ ", got " ++ y,
               auto_corrected := false, issue_type := "quality" }]) := by
  constructor
  · intro hr
    unfold checkYear
    rw [if_neg (by simp [h2]), if_neg (by simp [hr])]
  · intro hr
    unfold checkYear
    rw [if_neg (by simp [h2]), if_pos ⟨h1, h2, hr⟩]

/-- Claim C6, witness at year `"1899"`. -/
theorem claim6_witness :
    (("1899" : String) ≠ "" ∧ pyIsDigit "1899" = true
        ∧ ¬(1900 ≤ strToNat "1899" ∧ strToNat "1899" ≤ currentYear + 1))
      ∧ checkYear "תאריך לידה" "1899" =
          [{ field := "תאריך לידה" ++ ".שנה", raw_value := "1899",
             validated_value := "1899",
             reason := "Year should be 1900-" ++ toString (currentYear + 1)
               ++ ", got " ++ "1899",
             auto_corrected := false, issue_type := "quality" }] :=
  ⟨⟨by decide, by decide, by decide⟩,
   (claim6_year_range_hardcoded "תאריך לידה" "1899" (by decide) (by decide)).2
     (by decide)⟩


/-- Claim C7 (confirmed): validation is deterministic — two calls on an
identical record agree on both scores, the issue list (in order), the
missing-field list and the summary string. -/
theorem claim7_deterministic (f g : Form283Data) (h : f = g) :
    (validateRecord f).accuracy_score = (validateRecord g).accuracy_score
      ∧ (validateRecord f).completeness_score = (validateRecord g).completeness_score
      ∧ (validateRecord f).corrections = (validateRecord g).corrections
      ∧ (validateRecord f).missing_fields = (validateRecord g).missing_fields
      ∧ (validateRecord f).summary = (validateRecord g).summary := by
  subst h
  exact ⟨rfl, rfl, rfl, rfl, rfl⟩

/-- Claim C7, witness at the empty record. -/
theorem claim7_witness :
    emptyForm = emptyForm
      ∧ (validateRecord emptyForm).accuracy_score = (validateRecord emptyForm).accuracy_score
      ∧ (validateRecord emptyForm).completeness_score = (validateRecord emptyForm).completeness_score
      ∧ (validateRecord emptyForm).corrections = (validateRecord emptyForm).corrections
      ∧ (validateRecord emptyForm).missing_fields = (validateRecord emptyForm).missing_fields
      ∧ (validateRecord emptyForm).summary = (validateRecord emptyForm).summary :=
  ⟨rfl, claim7_deterministic emptyForm emptyForm rfl⟩

/-- Claim C8 (confirmed): a field whose value is the empty string never
receives a quality issue — empty fields are a completeness concern only. -/
theorem claim8_empty_fields_not_flagged (f : Form283Data) (path : String)
    (h : leafValue f path = "") :
    ∀ i ∈ (validateRecord f).corrections, i.field ≠ path := by
  intro i hi he
  rw [validateRecord_corrections] at hi
  obtain ⟨-, hne, hleaf, -⟩ := mem_check_field_quality hi
  rw [he, h] at hleaf
  exact hne hleaf.symm

/-- Claim C8, witness: the empty last-name field of the mobile-letters record
receives no issue. -/
theorem claim8_witness :
    leafValue mobileLettersForm "שם משפחה" = ""
      ∧ ∀ i ∈ (validateRecord mobileLettersForm).corrections,
          i.field ≠ "שם משפחה" :=
  ⟨rfl, claim8_empty_fields_not_flagged mobileLettersForm "שם משפחה" rfl⟩

/-- Claim C9 (confirmed): `validate` reports without rewriting — every issue
carries the offending field's value verbatim (not the separator-stripped
form) in both its value slots.  Non-mutation of the record itself is
immediate: the embedding of `validate` reads the record and returns only a
report. -/
theorem claim9_issues_verbatim (f : Form283Data) :
    ∀ i ∈ (validateRecord f).corrections,
      i.raw_value = leafValue f i.field
        ∧ i.validated_value = leafValue f i.field := by
  intro i hi
  rw [validateRecord_corrections] at hi
  obtain ⟨hvr, -, hleaf, -⟩ := mem_check_field_quality hi
  exact ⟨hleaf.symm, hvr.trans hleaf.symm⟩

/-- Claim C9, witness at the mobile-letters record. -/
theorem claim9_witness :
    ({ field := "טלפון נייד", raw_value := "abc1234567",
       validated_value := "abc1234567",
       reason := "Phone number contains non-numeric characters",
       auto_corrected := false, issue_type := "quality" } : FieldCorrection)
        ∈ (validateRecord mobileLettersForm).corrections
      ∧ ({ field := "טלפון נייד", raw_value := "abc1234567",
           validated_value := "abc1234567",
           reason := "Phone number contains non-numeric characters",
           auto_corrected := false, issue_type := "quality" } :
            FieldCorrection).raw_value
          = leafValue mobileLettersForm "טלפון נייד"
      ∧ ({ field := "טלפון נייד", raw_value := "abc1234567",
           validated_value := "abc1234567",
           reason := "Phone number contains non-numeric characters",
           auto_corrected := false, issue_type := "quality" } :
            FieldCorrection).validated_value
          = leafValue mobileLettersForm "טלפון נייד" :=
  ⟨by decide, claim9_issues_verbatim mobileLettersForm _ (by decide)⟩

/-- Claim C10 (confirmed): an all-digit `"05"`-prefixed landline value of any
length passes silently — the landline length check requires the cleaned value
to start with `"0"` but not `"05"`. -/
theorem claim10_landline_05_passes (f : Form283Data)
    (h1 : pyIsDigit (stripPhoneSeparators f.landlinePhone) = true)
    (h2 : pyStartsWith (stripPhoneSeparators f.landlinePhone) "05" = true) :
    ∀ i ∈ check_field_quality (dump f), i.field ≠ "טלפון קווי" := by
  intro i hi
  rw [check_field_quality_dump, checkLandlinePhone_eq_nil h1 h2] at hi
  simp only [checkDateComposite_dumpDate, List.mem_append, List.not_mem_nil,
    or_false, false_or, or_assoc] at hi
  rcases hi with h | h | h | h | h | h | h | h | h | h | h | h | h | h | h
  · rw [(mem_checkIdNumber h).1]; decide
  · rw [(mem_checkMobilePhone h).1]; decide
  · rw [(mem_checkDay h).1]; decide
  · rw [(mem_checkMonth h).1]; decide
  · rw [(mem_checkYear h).1]; decide
  · rw [(mem_checkDay h).1]; decide
  · rw [(mem_checkMonth h).1]; decide
  · rw [(mem_checkYear h).1]; decide
  · rw [(mem_checkDay h).1]; decide
  · rw [(mem_checkMonth h).1]; decide
  · rw [(mem_checkYear h).1]; decide
  · rw [(mem_checkDay h).1]; decide
  · rw [(mem_checkMonth h).1]; decide
  · rw [(mem_checkYear h).1]; decide
  · rw [(mem_checkPostalCode h).1]; decide

/-- Claim C10, witness: a 13-digit `"05"`-prefixed landline draws no landline
issue. -/
theorem claim10_witness :
    pyIsDigit (stripPhoneSeparators landline05LongForm.landlinePhone) = true
      ∧ pyStartsWith (stripPhoneSeparators landline05LongForm.landlinePhone) "05" = true
      ∧ ∀ i ∈ check_field_quality (dump landline05LongForm),
          i.field ≠ "טלפון קווי" :=
  ⟨by decide, by decide,
   claim10_landline_05_passes landline05LongForm (by decide) (by decide)⟩


end OCRExtractor

